import Mathlib

/-!
Verification of the aisuru-pp performance-calculation core.

The development shallowly embeds the two source files of the repository:

* `src/osu/pp.rs` — the osu!standard performance builder (`OsuPP`), its
  `accuracy` hit-count normalization, `assert_hitresults`,
  `calculate_effective_misses`, and the terminal `OsuPPInner::calculate`
  pipeline.
* `src/catch/gradual_performance.rs` — the osu!catch gradual performance
  evaluator (`CatchGradualPerformanceAttributes`) built on top of a
  resumable difficulty-attribute sequence and a one-shot `CatchPP` builder.

Modelling conventions:

* Rust `usize` values are `Nat`.  A Rust `usize` subtraction `a - b` that the
  source leaves unchecked (it panics on underflow in debug builds) is embedded
  as `checkedSub a b : Option Nat`, so the embedded function returns `none`
  exactly when the source arithmetic underflows.  Rust `saturating_sub` is
  Lean's truncated `Nat` subtraction.
* Rust `f64` values are embedded as exact arithmetic: `ℚ` where the source
  computation stays in ranges that are exact (counts cast to floats, the
  weighted-accuracy fractions), and `ℝ` for the transcendental performance
  pipeline (`powf` becomes `Real.rpow`, `log10` becomes `Real.logb 10`,
  `sqrt` becomes `Real.sqrt`).  Floating-point rounding error, NaN and
  infinity are idealized away.
* Collaborators that the repository consumes but whose code is not part of
  the two source files (difficulty attributes, the mods trait, the catch
  difficulty iterator and the catch one-shot builder) are modelled from the
  specification; each such definition carries a doc comment starting with
  `Modelled from the spec:`.
-/

/-- Modelled from the spec: the mod bitmask is out of scope and is consumed
only through boolean predicates (`Mods` trait, not part of the two source
files), so mods are embedded as a record of the predicates the source
queries. -/
structure Mods where
  nf : Bool
  so : Bool
  rx : Bool
  ap : Bool
  td : Bool
  hd : Bool
  fl : Bool
deriving DecidableEq

/-- Modelled from the spec: the opaque difficulty-attribute bundle produced by
the excluded collaborator (`OsuDifficultyAttributes`, not part of the two
source files).  The fields are exactly the ones `src/osu/pp.rs` reads. -/
structure OsuDifficultyAttributes where
  aim_strain : ℚ
  speed_strain : ℚ
  flashlight_rating : ℚ
  slider_factor : ℚ
  ar : ℚ
  od : ℚ
  cs : ℚ
  n_circles : Nat
  n_sliders : Nat
  n_spinners : Nat
  max_combo : Nat
  aim_difficult_strain_count : ℚ
deriving DecidableEq

/-- Modelled from the spec: the beatmap is consumed by `src/osu/pp.rs` only
through `hit_objects.len()` and `beatmap_id`. -/
structure Beatmap where
  hit_objects_len : Nat
  beatmap_id : Int
deriving DecidableEq

/-- The `OsuPP` builder state (`src/osu/pp.rs`, struct `OsuPP`). -/
structure OsuPP where
  map : Beatmap
  attributes : Option OsuDifficultyAttributes
  mods : Mods
  acc : Option ℚ
  combo : Option Nat
  n300 : Option Nat
  n100 : Option Nat
  n50 : Option Nat
  n_misses : Nat
  passed_objects : Option Nat
deriving DecidableEq

/-- `OsuPP::new` (`src/osu/pp.rs` lines 53-68). -/
def OsuPP.new (map : Beatmap) : OsuPP :=
  { map := map
    attributes := none
    mods := ⟨false, false, false, false, false, false, false⟩
    acc := none
    combo := none
    n300 := none
    n100 := none
    n50 := none
    n_misses := 0
    passed_objects := none }

/-- Checked `usize` subtraction: `some (a - b)` when the Rust subtraction
`a - b` is in range, `none` when the source arithmetic would underflow. -/
def checkedSub (a b : Nat) : Option Nat :=
  if b ≤ a then some (a - b) else none

/-- The `accuracy` setter (`src/osu/pp.rs` lines 178-237).  Every unchecked
`usize` subtraction of the source is embedded through `checkedSub`, so the
result is `none` exactly when the source underflows.  `saturating_sub`
(line 192) is `Nat` truncated subtraction.  `f64::round` on the nonnegative
values involved agrees with `round : ℚ → ℤ`, and `as usize` applied to the
rounded value is `Int.toNat`. -/
def OsuPP.accuracy (self : OsuPP) (acc0 : ℚ) : Option OsuPP := do
  let n_objects := self.passed_objects.getD self.map.hit_objects_len
  let acc := acc0 / 100
  if (self.n100.or self.n50).isSome then
    let n100 := self.n100.getD 0
    let n50 := self.n50.getD 0
    let placed_points := 2 * n100 + n50 + self.n_misses
    let mo1 ← checkedSub n_objects n100
    let mo2 ← checkedSub mo1 n50
    let missing_objects ← checkedSub mo2 self.n_misses
    let missing_points := (round (6 * acc * (n_objects : ℚ))).toNat - placed_points
    let n300 := min missing_objects (missing_points / 6)
    let n50 := n50 + (missing_objects - n300)
    let res ←
      match self.n50.filter fun _ => self.n100.isNone with
      | some orig_n50 => do
          let difference ← checkedSub n50 orig_n50
          let n := min n300 (difference / 4)
          let n300 ← checkedSub n300 n
          let n50 ← checkedSub n50 (4 * n)
          pure (n300, n100 + 5 * n, n50)
      | none => pure (n300, n100, n50)
    let acc := ((6 * res.1 + 2 * res.2.1 + res.2.2 : Nat) : ℚ) / ((6 * n_objects : Nat) : ℚ)
    pure { self with n300 := some res.1, n100 := some res.2.1, n50 := some res.2.2,
                     acc := some acc }
  else
    let misses := min self.n_misses n_objects
    let target_total := (round (acc * (n_objects : ℚ) * 6)).toNat
    let nm ← checkedSub n_objects misses
    let delta ← checkedSub target_total nm
    let n300 := delta / 5
    let t1 ← checkedSub n_objects n300
    let t2 ← checkedSub t1 misses
    let n100 := min (delta % 5) t2
    let u1 ← checkedSub n_objects n300
    let u2 ← checkedSub u1 n100
    let n50 ← checkedSub u2 misses
    let n := min n300 (n50 / 4)
    let n300 ← checkedSub n300 n
    let n100 := n100 + 5 * n
    let n50 ← checkedSub n50 (4 * n)
    let acc := ((6 * n300 + 2 * n100 + n50 : Nat) : ℚ) / ((6 * n_objects : Nat) : ℚ)
    pure { self with n300 := some n300, n100 := some n100, n50 := some n50,
                     acc := some acc }

/-- `calculate_effective_misses` (`src/osu/pp.rs` lines 688-712).  `total_hits`
is an `f64` in the source; every caller passes a `usize` cast, embedded here
as an exact `ℚ`.  `as usize` on the floored nonnegative `f64` is
`Int.toNat ∘ Int.floor`. -/
def calculate_effective_misses (attributes : OsuDifficultyAttributes)
    (combo : Option Nat) (n_misses : Nat) (total_hits : ℚ) : Nat :=
  let combo_based_misses : ℚ :=
    if 0 < attributes.n_sliders then
      let full_combo_threshold : ℚ :=
        (attributes.max_combo : ℚ) - (1 / 10) * (attributes.n_sliders : ℚ)
      match combo with
      | some c =>
          if (c : ℚ) < full_combo_threshold then
            full_combo_threshold / max (c : ℚ) 1
          else 0
      | none => 0
    else 0
  let combo_based_misses := min combo_based_misses total_hits
  max n_misses (Int.toNat ⌊combo_based_misses⌋)

/-- The resolved inputs of the terminal computation (`src/osu/pp.rs`,
struct `OsuPPInner`). -/
structure OsuPPInner where
  attributes : OsuDifficultyAttributes
  mods : Mods
  acc : ℚ
  combo : Option Nat
  n300 : Nat
  n100 : Nat
  n50 : Nat
  total_hits : ℚ
  effective_misses : Nat
deriving DecidableEq

/-- `OsuPP::assert_hitresults` (`src/osu/pp.rs` lines 239-323).  The
`saturating_sub` chain of the source is `Nat` truncated subtraction. -/
def OsuPP.assert_hitresults (self : OsuPP) (attributes : OsuDifficultyAttributes) :
    OsuPPInner :=
  let n300 := self.n300
  let n100 := self.n100
  let n50 := self.n50
  let n_objects := self.passed_objects.getD self.map.hit_objects_len
  match self.acc with
  | some acc =>
      let n300 := n300.getD 0
      let n100 := n100.getD 0
      let n50 := n50.getD 0
      let total_hits := ((min (n300 + n100 + n50 + self.n_misses) n_objects : Nat) : ℚ)
      let effective_misses :=
        calculate_effective_misses attributes self.combo self.n_misses total_hits
      { attributes := attributes, mods := self.mods, acc := acc, combo := self.combo,
        n300 := n300, n100 := n100, n50 := n50, total_hits := total_hits,
        effective_misses := effective_misses }
  | none =>
      let remaining := n_objects - n300.getD 0 - n100.getD 0 - n50.getD 0 - self.n_misses
      let counts : Option Nat × Option Nat × Option Nat :=
        if 0 < remaining then
          match n300 with
          | some v =>
              if n100.isNone then (some v, some remaining, n50)
              else if n50.isNone then (some v, n100, some remaining)
              else (some (v + remaining), n100, n50)
          | none => (some remaining, n100, n50)
        else (n300, n100, n50)
      let n300 := counts.1.getD 0
      let n100 := counts.2.1.getD 0
      let n50 := counts.2.2.getD 0
      let numerator := n300 * 6 + n100 * 2 + n50
      let acc : ℚ := if 0 < n_objects then (numerator : ℚ) / (n_objects : ℚ) / 6 else 0
      let total_hits := ((min (n300 + n100 + n50 + self.n_misses) n_objects : Nat) : ℚ)
      let effective_misses :=
        calculate_effective_misses attributes self.combo self.n_misses total_hits
      { attributes := attributes, mods := self.mods, acc := acc, combo := self.combo,
        n300 := n300, n100 := n100, n50 := n50, total_hits := total_hits,
        effective_misses := effective_misses }

/-- `f64::EPSILON`. -/
noncomputable def f64Epsilon : ℝ := 1 / 2 ^ (52 : Nat)

/-- `calculate_miss_penalty` (`src/osu/pp.rs` lines 681-686). -/
noncomputable def calculate_miss_penalty (n_misses difficult_strain_count : ℝ) : ℝ :=
  0.94 / (n_misses / (2 * Real.sqrt difficult_strain_count) + 1)

/-- `OsuPPInner::compute_aim_value` (`src/osu/pp.rs` lines 445-537). -/
noncomputable def OsuPPInner.compute_aim_value (self : OsuPPInner) : ℝ :=
  let attributes := self.attributes
  let total_hits : ℝ := (self.total_hits : ℚ)
  let raw_aim : ℝ :=
    if self.mods.td = true then ((attributes.aim_strain : ℚ) : ℝ) ^ (0.8 : ℝ)
    else ((attributes.aim_strain : ℚ) : ℝ)
  let aim_value := (5 * max (raw_aim / 0.0675) 1 - 4) ^ (3 : Nat) / 100000
  let len_bonus := 0.95 + 0.4 * min (total_hits / 2000) 1 +
    (if 2000 < total_hits then (1 : ℝ) else 0) * 0.5 * Real.logb 10 (total_hits / 2000)
  let aim_value := aim_value * len_bonus
  let effective_misses : ℝ := (self.effective_misses : ℝ)
  let aim_value :=
    if 0 < effective_misses then
      aim_value *
        calculate_miss_penalty effective_misses ((attributes.aim_difficult_strain_count : ℚ) : ℝ)
    else aim_value
  let ar : ℝ := ((attributes.ar : ℚ) : ℝ)
  let ar_factor : ℝ :=
    if self.mods.rx = true then (if 10.7 < ar then 0.4 * (ar - 10.7) else 0)
    else (if 10.33 < ar then 0.3 * (ar - 10.33) else 0)
  let aim_value :=
    if 0 < ar_factor then aim_value * (1 + ar_factor * len_bonus)
    else if ar < 8 then
      let buff : ℝ := if ar ≤ 5 then 1.3 + (5 - ar) / 50 else 1.3
      aim_value * min (buff * len_bonus) 1.75
    else aim_value
  let cs : ℝ := ((attributes.cs : ℚ) : ℝ)
  let aim_value :=
    if 6 < cs ∧ self.mods.rx = true then aim_value * (1.03 + (cs - 6) / 20) else aim_value
  let hd_factor : ℝ × ℝ := if self.mods.rx = true then (0.05, 11) else (0.04, 12)
  let aim_value :=
    if self.mods.hd = true then aim_value * (1 + hd_factor.1 * (hd_factor.2 - ar))
    else aim_value
  let aim_value :=
    if 0 < attributes.n_sliders then
      let estimate_difficult_sliders : ℝ := (attributes.n_sliders : ℝ) * 0.15
      let non_300s := total_hits - (self.n300 : ℝ)
      let missing_combo : Nat := attributes.max_combo - self.combo.getD attributes.max_combo
      let estimate_slider_ends_dropped :=
        min (max (min non_300s (missing_combo : ℝ)) 0) estimate_difficult_sliders
      let base := 1 - estimate_slider_ends_dropped / estimate_difficult_sliders
      let slider_nerf_factor :=
        (1 - ((attributes.slider_factor : ℚ) : ℝ)) * base * base * base +
          ((attributes.slider_factor : ℚ) : ℝ)
      aim_value * slider_nerf_factor
    else aim_value
  let aim_value := aim_value * ((self.acc : ℚ) : ℝ)
  let od : ℝ := ((attributes.od : ℚ) : ℝ)
  aim_value * (0.98 + od * od / 2500)

/-- `OsuPPInner::compute_speed_value` (`src/osu/pp.rs` lines 539-598). -/
noncomputable def OsuPPInner.compute_speed_value (self : OsuPPInner) : ℝ :=
  let attributes := self.attributes
  let total_hits : ℝ := (self.total_hits : ℚ)
  let speed_value :=
    (5 * max (((attributes.speed_strain : ℚ) : ℝ) / 0.0675) 1 - 4) ^ (3 : Nat) / 100000
  let len_bonus := 0.95 + 0.4 * min (total_hits / 2000) 1 +
    (if 2000 < total_hits then (1 : ℝ) else 0) * 0.5 * Real.logb 10 (total_hits / 2000)
  let speed_value := speed_value * len_bonus
  let effective_misses : ℝ := (self.effective_misses : ℝ)
  let speed_value :=
    if 0 < effective_misses then
      speed_value *
        calculate_miss_penalty effective_misses ((attributes.aim_difficult_strain_count : ℚ) : ℝ)
    else speed_value
  let ar : ℝ := ((attributes.ar : ℚ) : ℝ)
  let ar_factor : ℝ :=
    if self.mods.rx = true then (if 10.7 < ar then 0.4 * (ar - 10.7) else 0)
    else (if 10.33 < ar then 0.3 * (ar - 10.33) else 0)
  let speed_value := speed_value * (1 + ar_factor * len_bonus)
  let hd_factor : ℝ × ℝ := if self.mods.rx = true then (0.05, 11) else (0.04, 12)
  let speed_value :=
    if self.mods.hd = true then speed_value * (1 + hd_factor.1 * (hd_factor.2 - ar))
    else speed_value
  let od : ℝ := ((attributes.od : ℚ) : ℝ)
  let od_factor := 0.95 + od * od / 750
  let acc_factor := ((self.acc : ℚ) : ℝ) ^ ((14.5 - max od 8) / 2)
  let speed_value := speed_value * (od_factor * acc_factor)
  speed_value *
    (0.98 : ℝ) ^ ((if total_hits / 500 ≤ (self.n50 : ℝ) then (1 : ℝ) else 0) *
      ((self.n50 : ℝ) - total_hits / 500))

/-- `OsuPPInner::compute_accuracy_value` (`src/osu/pp.rs` lines 600-628). -/
noncomputable def OsuPPInner.compute_accuracy_value (self : OsuPPInner) : ℝ :=
  let attributes := self.attributes
  let total_hits : ℝ := (self.total_hits : ℚ)
  let n_circles : ℝ := (attributes.n_circles : ℝ)
  let n300 : ℝ := (self.n300 : ℝ)
  let n100 : ℝ := (self.n100 : ℝ)
  let n50 : ℝ := (self.n50 : ℝ)
  let better_acc_percentage := (if 0 < n_circles then (1 : ℝ) else 0) *
    max (((n300 - (total_hits - n_circles)) * 6 + n100 * 2 + n50) / (n_circles * 6)) 0
  let acc_value :=
    (1.52163 : ℝ) ^ (((attributes.od : ℚ) : ℝ)) * better_acc_percentage ^ (24 : Nat) * 2.83
  let acc_value := acc_value * min ((n_circles / 1000) ^ (0.3 : ℝ)) 1.15
  let acc_value := if self.mods.hd = true then acc_value * 1.08 else acc_value
  if self.mods.fl = true then acc_value * 1.02 else acc_value

/-- `OsuPPInner::compute_flashlight_value` (`src/osu/pp.rs` lines 630-678). -/
noncomputable def OsuPPInner.compute_flashlight_value (self : OsuPPInner) : ℝ :=
  if self.mods.fl = false then 0
  else
    let attributes := self.attributes
    let total_hits : ℝ := (self.total_hits : ℚ)
    let raw_flashlight : ℝ :=
      if self.mods.td = true then ((attributes.flashlight_rating : ℚ) : ℝ) ^ (0.8 : ℝ)
      else ((attributes.flashlight_rating : ℚ) : ℝ)
    let flashlight_value := raw_flashlight * raw_flashlight * 25
    let flashlight_value :=
      if self.mods.hd = true then flashlight_value * 1.3 else flashlight_value
    let effective_misses : ℝ := (self.effective_misses : ℝ)
    let flashlight_value :=
      if 0 < effective_misses then
        flashlight_value * (0.97 *
          (1 - (effective_misses / total_hits) ^ (0.775 : ℝ)) ^
            (effective_misses ^ (0.875 : ℝ)))
      else flashlight_value
    let flashlight_value :=
      match self.combo.filter fun _ => 0 < attributes.max_combo with
      | some combo =>
          flashlight_value *
            min (((combo : ℝ) / (attributes.max_combo : ℝ)) ^ (0.8 : ℝ)) 1
      | none => flashlight_value
    let flashlight_value := flashlight_value *
      (0.7 + 0.1 * min (total_hits / 200) 1 +
        (if 200 < total_hits then (1 : ℝ) else 0) * (0.2 * min ((total_hits - 200) / 200) 1))
    let flashlight_value := flashlight_value * (0.5 + ((self.acc : ℚ) : ℝ) / 2)
    let od : ℝ := ((attributes.od : ℚ) : ℝ)
    flashlight_value * (0.98 + od * od / 2500)

/-- The hard-coded RX map-ID correction block (`src/osu/pp.rs` lines 414-430):
the `match map_id` applied to `pp` when the RX mod is active. -/
noncomputable def rxMapAdjust (map_id : Int) (pp : ℝ) : ℝ :=
  if map_id = 1808605 then pp * 0.7
  else if map_id = 1821147 then pp * 0.6
  else if map_id = 1849420 then pp * 0.6
  else pp

/-- The multiplicative factor rxMapAdjust applies, for stating the map-ID
correction claim. -/
noncomputable def rxMapFactor (map_id : Int) : ℝ :=
  if map_id = 1808605 then 0.7
  else if map_id = 1821147 then 0.6
  else if map_id = 1849420 then 0.6
  else 1

/-- The performance-attribute output (`OsuPerformanceAttributes`, consumed by
`src/osu/pp.rs`). -/
structure OsuPerformanceAttributes where
  difficulty : OsuDifficultyAttributes
  pp_acc : ℝ
  pp_aim : ℝ
  pp_flashlight : ℝ
  pp_speed : ℝ
  pp : ℝ

/-- `OsuPPInner::calculate` (`src/osu/pp.rs` lines 361-443). -/
noncomputable def OsuPPInner.calculate (self : OsuPPInner) (map_id : Int) :
    OsuPerformanceAttributes :=
  let vals : ℝ × ℝ × ℝ × ℝ × ℝ :=
    if |((self.total_hits : ℚ) : ℝ)| ≤ f64Epsilon then (0, 0, 0, 0, 0)
    else
      let multiplier : ℝ := 1.12
      let multiplier :=
        if self.mods.nf = true then
          multiplier * max (1 - 0.02 * (self.effective_misses : ℝ)) 0.9
        else multiplier
      let multiplier :=
        if self.mods.so = true then
          multiplier *
            (1 - ((self.attributes.n_spinners : ℝ) / ((self.total_hits : ℚ) : ℝ)) ^ (0.85 : ℝ))
        else multiplier
      let aim_value := self.compute_aim_value
      let speed_value := self.compute_speed_value
      let acc_value := self.compute_accuracy_value
      let flashlight_value := self.compute_flashlight_value
      let aim_value :=
        if self.mods.rx = true ∧ aim_value / speed_value < 1 then
          aim_value *
            (if 0.97 ≤ (self.acc : ℚ) then
              0.94 - (0.99 - ((round (self.acc : ℚ) : Int) : ℝ)) * 2
            else 0.87)
        else aim_value
      let pp :=
        if self.mods.rx = true then
          (aim_value ^ (1.17 : ℝ) + acc_value ^ (1.15 : ℝ) + flashlight_value ^ (1.1 : ℝ)) ^
              ((1 : ℝ) / 1.1) * multiplier
        else if self.mods.ap = true then
          (acc_value ^ (1.15 : ℝ) + flashlight_value ^ (1.1 : ℝ)) ^ ((1 : ℝ) / 1.1) * multiplier
        else
          (aim_value ^ (1.1 : ℝ) + speed_value ^ (1.1 : ℝ) + acc_value ^ (1.1 : ℝ) +
              flashlight_value ^ (1.1 : ℝ)) ^ ((1 : ℝ) / 1.1) * multiplier
      let pp := if self.mods.rx = true then rxMapAdjust map_id pp else pp
      (aim_value, speed_value, acc_value, flashlight_value, pp)
  { difficulty := self.attributes
    pp_acc := vals.2.2.1
    pp_aim := vals.1
    pp_flashlight := vals.2.2.2.1
    pp_speed := vals.2.1
    pp := vals.2.2.2.2 }

/-- `CatchScoreState` (`src/catch/gradual_performance.rs` lines 10-26). -/
structure CatchScoreState where
  max_combo : Nat
  n_fruits : Nat
  n_droplets : Nat
  n_tiny_droplets : Nat
  n_tiny_droplet_misses : Nat
  misses : Nat
deriving DecidableEq, Inhabited

/-- `CatchScoreState::new` (`src/catch/gradual_performance.rs` lines 29-32). -/
def CatchScoreState.new : CatchScoreState := ⟨0, 0, 0, 0, 0, 0⟩

/-- Modelled from the spec: the opaque osu!catch difficulty-attribute snapshot
(`CatchDifficultyAttributes`, not part of the two source files); its contents
are irrelevant to the gradual evaluator, which only threads it through. -/
structure CatchDifficultyAttributes where
  stars : ℚ
deriving DecidableEq

/-- The osu!catch performance-attribute output (`CatchPerformanceAttributes`,
consumed by `src/catch/gradual_performance.rs`). -/
structure CatchPerformanceAttributes where
  difficulty : CatchDifficultyAttributes
  pp : ℚ
deriving DecidableEq

/-- Modelled from the spec: the beatmap together with the two out-of-scope
collaborators the catch evaluator relies on — `snapshotAt mods k` is the
difficulty-attribute bundle a from-scratch derivation bounded to `k` passed
objects produces (spec §2, §4.6: the gradual sequence is consistent with the
from-scratch computation over the same prefix), and `aggregate` is the
one-shot Aggregator invoked by `CatchPP::calculate` on the resolved
(mods, attributes, score state, passed-object count). -/
structure CatchBeatmap where
  hit_objects_len : Nat
  snapshotAt : Nat → Nat → CatchDifficultyAttributes
  aggregate : Nat → CatchDifficultyAttributes → CatchScoreState → Nat →
    CatchPerformanceAttributes

/-- Modelled from the spec: the osu!catch one-shot performance builder
(`CatchPP`, not part of the two source files): the configuration surface of
spec §6 restricted to the setters `src/catch/gradual_performance.rs` uses
(mods, prior attributes, bulk score state, passed-object count). -/
structure CatchPP where
  map : CatchBeatmap
  modBits : Nat
  attrs : Option CatchDifficultyAttributes
  curState : CatchScoreState
  passedObjects : Option Nat

/-- Modelled from the spec: `CatchPP::new`. -/
def CatchPP.new (map : CatchBeatmap) : CatchPP :=
  { map := map, modBits := 0, attrs := none, curState := CatchScoreState.new,
    passedObjects := none }

/-- Modelled from the spec: the `mods` setter of `CatchPP`. -/
def CatchPP.mods (self : CatchPP) (mods : Nat) : CatchPP :=
  { self with modBits := mods }

/-- Modelled from the spec: the `attributes` setter of `CatchPP`. -/
def CatchPP.attributes (self : CatchPP) (attributes : CatchDifficultyAttributes) : CatchPP :=
  { self with attrs := some attributes }

/-- Modelled from the spec: the `state` setter of `CatchPP` (bulk score-state
assignment). -/
def CatchPP.state (self : CatchPP) (state : CatchScoreState) : CatchPP :=
  { self with curState := state }

/-- Modelled from the spec: the `passed_objects` setter of `CatchPP`. -/
def CatchPP.passed_objects (self : CatchPP) (passed_objects : Nat) : CatchPP :=
  { self with passedObjects := some passed_objects }

/-- Modelled from the spec: `CatchPP::calculate` — reuse caller-supplied
difficulty attributes or fall back to the derivation bounded to
`passed_objects` (defaulting to full map length), then invoke the Aggregator
on the resolved inputs (spec §2 control flow, §6 terminal operation). -/
def CatchPP.calculate (self : CatchPP) : CatchPerformanceAttributes :=
  let n := self.passedObjects.getD self.map.hit_objects_len
  let attributes := self.attrs.getD (self.map.snapshotAt self.modBits n)
  self.map.aggregate self.modBits attributes self.curState n

/-- Modelled from the spec: the resumable difficulty-attribute sequence
(`CatchGradualDifficultyAttributes`, not part of the two source files):
an iterator with a `next()` operation returning an optional snapshot and an
exposed read-only cursor `idx` (spec §9); it yields one snapshot per processed
object, is finite with one snapshot per hit object, and the snapshot after
`k` objects agrees with a from-scratch derivation bounded to `k`. -/
structure CatchGradualDifficultyAttributes where
  total : Nat
  snapshot : Nat → CatchDifficultyAttributes
  idx : Nat

/-- Modelled from the spec: `CatchGradualDifficultyAttributes::new` starts the
sequence at cursor 0 over the map's hit objects. -/
def CatchGradualDifficultyAttributes.new (map : CatchBeatmap) (mods : Nat) :
    CatchGradualDifficultyAttributes :=
  { total := map.hit_objects_len, snapshot := fun k => map.snapshotAt mods k, idx := 0 }

/-- Modelled from the spec: `Iterator::next` of the difficulty sequence —
yield the next snapshot and advance the cursor, or yield nothing once the
cursor has reached the total object count. -/
def CatchGradualDifficultyAttributes.next (self : CatchGradualDifficultyAttributes) :
    Option CatchDifficultyAttributes × CatchGradualDifficultyAttributes :=
  if self.idx < self.total then
    (some (self.snapshot (self.idx + 1)), { self with idx := self.idx + 1 })
  else (none, self)

/-- `CatchGradualPerformanceAttributes` (`src/catch/gradual_performance.rs`
lines 127-131). -/
structure CatchGradualPerformanceAttributes where
  difficulty : CatchGradualDifficultyAttributes
  performance : CatchPP

/-- `CatchGradualPerformanceAttributes::new` (`src/catch/gradual_performance.rs`
lines 135-143). -/
def CatchGradualPerformanceAttributes.new (map : CatchBeatmap) (mods : Nat) :
    CatchGradualPerformanceAttributes :=
  { difficulty := CatchGradualDifficultyAttributes.new map mods
    performance := ((CatchPP.new map).mods mods).passed_objects 0 }

/-- The `for _ in 0..n.max(1)` loop of `process_next_n_objects`
(`src/catch/gradual_performance.rs` lines 168-175): pull up to the given
number of snapshots, keeping the last one pulled in the accumulator, and stop
early once the sequence is exhausted. -/
def pullLoop : Nat → CatchGradualDifficultyAttributes →
    Option CatchDifficultyAttributes →
    Option CatchDifficultyAttributes × CatchGradualDifficultyAttributes
  | 0, d, acc => (acc, d)
  | k + 1, d, acc =>
      match d.next with
      | (none, d1) => (acc, d1)
      | (some a, d1) => pullLoop k d1 (some a)

/-- `CatchGradualPerformanceAttributes::process_next_n_objects`
(`src/catch/gradual_performance.rs` lines 163-188).  The pair returned is
(result, updated evaluator): the source mutates `self` in place. -/
def CatchGradualPerformanceAttributes.process_next_n_objects
    (self : CatchGradualPerformanceAttributes) (state : CatchScoreState) (n : Nat) :
    Option CatchPerformanceAttributes × CatchGradualPerformanceAttributes :=
  let pulled := pullLoop (max n 1) self.difficulty none
  match pulled.1 with
  | none => (none, { self with difficulty := pulled.2 })
  | some attrs =>
      let performance :=
        ((((self.performance).attributes attrs).state state).passed_objects
          pulled.2.idx).calculate
      (some performance, { self with difficulty := pulled.2 })

/-- `CatchGradualPerformanceAttributes::process_next_object`
(`src/catch/gradual_performance.rs` lines 150-155). -/
def CatchGradualPerformanceAttributes.process_next_object
    (self : CatchGradualPerformanceAttributes) (state : CatchScoreState) :
    Option CatchPerformanceAttributes × CatchGradualPerformanceAttributes :=
  self.process_next_n_objects state 1

/-- Run a sequence of `process_next_n_objects` calls, each with its own step
count and score state, threading the evaluator. -/
def CatchGradualPerformanceAttributes.runPre
    (self : CatchGradualPerformanceAttributes) :
    List (Nat × CatchScoreState) → CatchGradualPerformanceAttributes
  | [] => self
  | (n, s) :: rest => ((self.process_next_n_objects s n).2).runPre rest

/-- The number of objects a sequence of advance calls consumes when none of
them hits the end of the map: each call with step `n` consumes `max n 1`. -/
def effSteps (l : List (Nat × CatchScoreState)) : Nat :=
  (l.map fun p => max p.1 1).sum

/-- No mods active. -/
def noMods : Mods := ⟨false, false, false, false, false, false, false⟩

/-- An all-zero difficulty-attribute bundle, for concrete evaluations. -/
def zeroAttrs : OsuDifficultyAttributes := ⟨0, 0, 0, 0, 0, 0, 0, 0, 0, 0, 0, 0⟩

/-- A difficulty-attribute bundle with sliders, for concrete evaluations of
the combo-based miss estimate. -/
def sliderAttrs : OsuDifficultyAttributes :=
  { zeroAttrs with n_sliders := 4, max_combo := 20 }

/-- A fresh osu! builder with the given miss count and passed-object count
(the map behind it is irrelevant once `passed_objects` is set). -/
def accB (n_objects misses : Nat) : OsuPP :=
  { OsuPP.new ⟨0, 0⟩ with n_misses := misses, passed_objects := some n_objects }

/-- The builder `accB 4 0` after `accuracy(50.0)`: the derived counts are
1× 300, 3× 100, 0× 50 and the stored accuracy is 1/2. -/
def accB4After : OsuPP :=
  { accB 4 0 with n300 := some 1, n100 := some 3, n50 := some 0, acc := some (1 / 2) }

/-- A builder exercising the leftover-distribution of `assert_hitresults`:
n300 and n50 explicitly set, n100 unset, with explicit counts plus misses
summing below the object count. -/
def c10B : OsuPP :=
  { OsuPP.new ⟨0, 0⟩ with n300 := some 3, n50 := some 2, n_misses := 1,
                          passed_objects := some 10 }

/-- Resolved terminal inputs with a zero judged-object count. -/
def zeroInner : OsuPPInner := ⟨zeroAttrs, noMods, 0, none, 0, 0, 0, 0, 0⟩

/-- A concrete catch beatmap model of the given length whose collaborator
functions distinguish their inputs. -/
def catchMapN (len : Nat) : CatchBeatmap :=
  { hit_objects_len := len
    snapshotAt := fun mods k => ⟨(mods : ℚ) + k⟩
    aggregate := fun mods a s k => ⟨a, (mods : ℚ) + a.stars + (s.misses : ℚ) + k⟩ }

/-- An exhausted gradual evaluator (cursor equal to the total object count). -/
def exhaustedGradual : CatchGradualPerformanceAttributes :=
  CatchGradualPerformanceAttributes.new (catchMapN 0) 0

theorem pullLoop_spec (k : Nat) :
    ∀ (d : CatchGradualDifficultyAttributes) (acc : Option CatchDifficultyAttributes),
      pullLoop (k + 1) d acc =
        if d.idx < d.total then
          (some (d.snapshot (min (d.idx + (k + 1)) d.total)),
            ⟨d.total, d.snapshot, min (d.idx + (k + 1)) d.total⟩)
        else (acc, d) := by
  induction k with
  | zero =>
      intro d acc
      by_cases h : d.idx < d.total
      · have hmin : min (d.idx + 1) d.total = d.idx + 1 := by omega
        simp [pullLoop, CatchGradualDifficultyAttributes.next, h, hmin]
      · simp [pullLoop, CatchGradualDifficultyAttributes.next, h]
  | succ k ih =>
      intro d acc
      by_cases h : d.idx < d.total
      · show (match d.next with
          | (none, d1) => (acc, d1)
          | (some a, d1) => pullLoop (k + 1) d1 (some a)) = _
        rw [CatchGradualDifficultyAttributes.next, if_pos h]
        dsimp only
        rw [ih]
        by_cases h1 : d.idx + 1 < d.total
        · have : min (d.idx + 1 + (k + 1)) d.total = min (d.idx + (k + 1 + 1)) d.total := by
            omega
          simp only [h1, if_pos, this, if_pos h]
        · have hidx : d.idx + 1 = d.total := by omega
          have : min (d.idx + (k + 1 + 1)) d.total = d.idx + 1 := by omega
          simp only [if_neg h1, if_pos h, this]
      · show (match d.next with
          | (none, d1) => (acc, d1)
          | (some a, d1) => pullLoop (k + 1) d1 (some a)) = _
        rw [CatchGradualDifficultyAttributes.next, if_neg h]
        rw [if_neg h]

theorem process_next_n_objects_spec (g : CatchGradualPerformanceAttributes)
    (s : CatchScoreState) (n : Nat) :
    g.process_next_n_objects s n =
      if g.difficulty.idx < g.difficulty.total then
        (some (((((g.performance).attributes
              (g.difficulty.snapshot (min (g.difficulty.idx + max n 1) g.difficulty.total))).state
              s).passed_objects (min (g.difficulty.idx + max n 1) g.difficulty.total)).calculate),
          ⟨⟨g.difficulty.total, g.difficulty.snapshot,
              min (g.difficulty.idx + max n 1) g.difficulty.total⟩, g.performance⟩)
      else (none, g) := by
  have hk : max n 1 = (max n 1 - 1) + 1 := by omega
  unfold CatchGradualPerformanceAttributes.process_next_n_objects
  rw [hk, pullLoop_spec]
  by_cases h : g.difficulty.idx < g.difficulty.total
  · rw [if_pos h, if_pos h]
  · rw [if_neg h, if_neg h]

theorem runPre_spec (l : List (Nat × CatchScoreState)) :
    ∀ g : CatchGradualPerformanceAttributes, g.difficulty.idx ≤ g.difficulty.total →
      g.runPre l =
        ⟨⟨g.difficulty.total, g.difficulty.snapshot,
            min (g.difficulty.idx + effSteps l) g.difficulty.total⟩, g.performance⟩ := by
  induction l with
  | nil =>
      intro g hle
      have : min (g.difficulty.idx + effSteps []) g.difficulty.total = g.difficulty.idx := by
        simp [effSteps]; omega
      rw [CatchGradualPerformanceAttributes.runPre, this]
  | cons p rest ih =>
      intro g hle
      obtain ⟨n, s⟩ := p
      show ((g.process_next_n_objects s n).2).runPre rest = _
      rw [process_next_n_objects_spec]
      by_cases h : g.difficulty.idx < g.difficulty.total
      · rw [if_pos h]
        rw [ih _ (by dsimp only; omega)]
        have : min (min (g.difficulty.idx + max n 1) g.difficulty.total + effSteps rest)
            g.difficulty.total =
            min (g.difficulty.idx + effSteps ((n, s) :: rest)) g.difficulty.total := by
          simp only [effSteps, List.map_cons, List.sum_cons]
          omega
        simp only [this]
      · rw [if_neg h]
        rw [ih _ hle]
        have : min (g.difficulty.idx + effSteps rest) g.difficulty.total =
            min (g.difficulty.idx + effSteps ((n, s) :: rest)) g.difficulty.total := by
          simp only [effSteps, List.map_cons, List.sum_cons]
          omega
        simp only [this]

/-- C1 (counterexample): on a 1-object map, one bulk `advance(2)` processes the
remaining object and yields a result, while two `advance(1)` calls of the same
effective total end with an exhausted call yielding no result — so the claim
as stated (for every map) fails when the advanced total exceeds the map's
object count. -/
theorem catch_gradual_single_vs_bulk_cex :
    ¬ (((CatchGradualPerformanceAttributes.new (catchMapN 1) 0).process_next_n_objects
          CatchScoreState.new 2).1 =
        ((((CatchGradualPerformanceAttributes.new (catchMapN 1) 0).process_next_n_objects
          CatchScoreState.new 1).2).process_next_n_objects CatchScoreState.new 1).1) := by
  decide

/-- C1 (amended): two gradual evaluators over the same map and mods, advanced
by call sequences of equal effective total (each call advancing `max n 1`
objects), produce bit-for-bit equal performance attributes on the final call
for the same final score state, provided the total does not exceed the map's
object count.  Intermediate score states are arbitrary. -/
theorem catch_gradual_single_vs_bulk (map : CatchBeatmap) (mods : Nat)
    (pre1 pre2 : List (Nat × CatchScoreState)) (n1 n2 : Nat) (s : CatchScoreState)
    (hsum : effSteps pre1 + max n1 1 = effSteps pre2 + max n2 1)
    (hlen : effSteps pre1 + max n1 1 ≤ map.hit_objects_len) :
    (((CatchGradualPerformanceAttributes.new map mods).runPre pre1).process_next_n_objects
        s n1).1 =
    (((CatchGradualPerformanceAttributes.new map mods).runPre pre2).process_next_n_objects
        s n2).1 := by
  have h0 : (CatchGradualPerformanceAttributes.new map mods).difficulty.idx ≤
      (CatchGradualPerformanceAttributes.new map mods).difficulty.total := by
    dsimp [CatchGradualPerformanceAttributes.new, CatchGradualDifficultyAttributes.new]
    omega
  rw [runPre_spec pre1 _ h0, runPre_spec pre2 _ h0,
    process_next_n_objects_spec, process_next_n_objects_spec]
  dsimp only [CatchGradualPerformanceAttributes.new, CatchGradualDifficultyAttributes.new]
  have hm1 : 1 ≤ max n1 1 := le_max_right _ _
  have hm2 : 1 ≤ max n2 1 := le_max_right _ _
  have e1 : min (0 + effSteps pre1) map.hit_objects_len = effSteps pre1 := by omega
  have e2 : min (0 + effSteps pre2) map.hit_objects_len = effSteps pre2 := by omega
  rw [e1, e2]
  rw [if_pos (by omega), if_pos (by omega)]
  have j1 : min (effSteps pre1 + max n1 1) map.hit_objects_len = effSteps pre1 + max n1 1 := by
    omega
  have j2 : min (effSteps pre2 + max n2 1) map.hit_objects_len = effSteps pre2 + max n2 1 := by
    omega
  rw [j1, j2, hsum]

/-- C1 (witness): the amended equivalence at a concrete 5-object map, mods 64,
20-then-80-style split (here 1+1 singles then a final advance(2) versus one
advance(2) then a final advance(2)) and a concrete final score state. -/
theorem catch_gradual_single_vs_bulk_witness :
    (((CatchGradualPerformanceAttributes.new (catchMapN 5) 64).runPre
        [(1, CatchScoreState.new), (1, CatchScoreState.new)]).process_next_n_objects
        ⟨4, 3, 1, 0, 0, 0⟩ 2).1 =
    (((CatchGradualPerformanceAttributes.new (catchMapN 5) 64).runPre
        [(2, CatchScoreState.new)]).process_next_n_objects ⟨4, 3, 1, 0, 0, 0⟩ 2).1 :=
  catch_gradual_single_vs_bulk (catchMapN 5) 64
    [(1, CatchScoreState.new), (1, CatchScoreState.new)] [(2, CatchScoreState.new)]
    2 2 ⟨4, 3, 1, 0, 0, 0⟩ (by decide) (by decide)

/-- C2 (counterexample): on an empty map the gradual evaluator returns no
result for any advance, while the direct one-shot evaluation still returns
performance attributes, so the full-length part of the claim fails for
maps with zero objects. -/
theorem catch_gradual_matches_oneshot_cex :
    ¬ (((CatchGradualPerformanceAttributes.new (catchMapN 0) 0).process_next_n_objects
          CatchScoreState.new 10).1 =
        some ((((CatchPP.new (catchMapN 0)).mods 0).state CatchScoreState.new).calculate)) := by
  decide

/-- C2 (amended): (1) a gradual evaluator driven to exactly `k` processed
objects (1 ≤ k ≤ map length) returns the same performance attributes as a
direct one-shot builder evaluation with `passed_objects = k` and the same
score state; (2) a gradual evaluator driven across the end of the map by an
arbitrarily large final advance returns the same performance attributes as a
direct one-shot evaluation with no `passed_objects` restriction and the same
score state, provided the map has at least one object. -/
theorem catch_gradual_matches_oneshot :
    (∀ (map : CatchBeatmap) (mods : Nat) (pre : List (Nat × CatchScoreState)) (n : Nat)
        (s : CatchScoreState) (k : Nat),
        effSteps pre + max n 1 = k → k ≤ map.hit_objects_len →
        (((CatchGradualPerformanceAttributes.new map mods).runPre pre).process_next_n_objects
            s n).1 =
          some (((((CatchPP.new map).mods mods).state s).passed_objects k).calculate)) ∧
    (∀ (map : CatchBeatmap) (mods : Nat) (pre : List (Nat × CatchScoreState)) (n : Nat)
        (s : CatchScoreState),
        effSteps pre < map.hit_objects_len → map.hit_objects_len ≤ effSteps pre + max n 1 →
        (((CatchGradualPerformanceAttributes.new map mods).runPre pre).process_next_n_objects
            s n).1 =
          some ((((CatchPP.new map).mods mods).state s).calculate)) := by
  constructor
  · intro map mods pre n s k hk hlen
    have h0 : (CatchGradualPerformanceAttributes.new map mods).difficulty.idx ≤
        (CatchGradualPerformanceAttributes.new map mods).difficulty.total := by
      dsimp [CatchGradualPerformanceAttributes.new, CatchGradualDifficultyAttributes.new]
      omega
    rw [runPre_spec pre _ h0, process_next_n_objects_spec]
    dsimp only [CatchGradualPerformanceAttributes.new, CatchGradualDifficultyAttributes.new]
    have hm : 1 ≤ max n 1 := le_max_right _ _
    have e1 : min (0 + effSteps pre) map.hit_objects_len = effSteps pre := by omega
    rw [e1, if_pos (by omega)]
    have j1 : min (effSteps pre + max n 1) map.hit_objects_len = k := by omega
    rw [j1]
    rfl
  · intro map mods pre n s hlt hge
    have h0 : (CatchGradualPerformanceAttributes.new map mods).difficulty.idx ≤
        (CatchGradualPerformanceAttributes.new map mods).difficulty.total := by
      dsimp [CatchGradualPerformanceAttributes.new, CatchGradualDifficultyAttributes.new]
      omega
    rw [runPre_spec pre _ h0, process_next_n_objects_spec]
    dsimp only [CatchGradualPerformanceAttributes.new, CatchGradualDifficultyAttributes.new]
    have e1 : min (0 + effSteps pre) map.hit_objects_len = effSteps pre := by omega
    rw [e1, if_pos (by omega)]
    have j1 : min (effSteps pre + max n 1) map.hit_objects_len = map.hit_objects_len := by
      omega
    rw [j1]
    rfl

/-- C2 (witness): both parts of the amended claim at a concrete 5-object map —
driving to exactly 3 objects versus `passed_objects = 3`, and driving across
the end with advance(99) versus an unrestricted one-shot. -/
theorem catch_gradual_matches_oneshot_witness :
    ((((CatchGradualPerformanceAttributes.new (catchMapN 5) 64).runPre
          [(1, CatchScoreState.new)]).process_next_n_objects ⟨2, 2, 1, 0, 0, 0⟩ 2).1 =
        some (((((CatchPP.new (catchMapN 5)).mods 64).state
          ⟨2, 2, 1, 0, 0, 0⟩).passed_objects 3).calculate)) ∧
    ((((CatchGradualPerformanceAttributes.new (catchMapN 5) 64).runPre
          [(3, CatchScoreState.new)]).process_next_n_objects ⟨5, 5, 0, 0, 0, 0⟩ 99).1 =
        some ((((CatchPP.new (catchMapN 5)).mods 64).state ⟨5, 5, 0, 0, 0, 0⟩).calculate)) :=
  ⟨catch_gradual_matches_oneshot.1 (catchMapN 5) 64 [(1, CatchScoreState.new)] 2
      ⟨2, 2, 1, 0, 0, 0⟩ 3 (by decide) (by decide),
    catch_gradual_matches_oneshot.2 (catchMapN 5) 64 [(3, CatchScoreState.new)] 99
      ⟨5, 5, 0, 0, 0, 0⟩ (by decide) (by decide)⟩

/-- C8: once the difficulty sequence is exhausted (cursor equal to the total
object count), every further `process_next_n_objects` and
`process_next_object` call returns no result, for every score state and every
`n`. -/
theorem gradual_exhausted_none (g : CatchGradualPerformanceAttributes)
    (h : g.difficulty.idx = g.difficulty.total) (s : CatchScoreState) (n : Nat) :
    (g.process_next_n_objects s n).1 = none ∧ (g.process_next_object s).1 = none := by
  constructor
  · rw [process_next_n_objects_spec, if_neg (by omega)]
  · show (g.process_next_n_objects s 1).1 = none
    rw [process_next_n_objects_spec, if_neg (by omega)]

/-- C8 (witness): a concrete exhausted evaluator (empty map, cursor 0 = total
0) returns no result for a bulk advance of 7 and for a single-object
advance. -/
theorem gradual_exhausted_none_witness :
    (exhaustedGradual.process_next_n_objects CatchScoreState.new 7).1 = none ∧
    (exhaustedGradual.process_next_object CatchScoreState.new).1 = none :=
  gradual_exhausted_none exhaustedGradual rfl CatchScoreState.new 7

theorem max_toNat_floor_le (m : Nat) (cb total : ℚ) (h : (m : ℚ) ≤ total) :
    ((max m (Int.toNat ⌊min cb total⌋) : Nat) : ℚ) ≤ total := by
  rw [Nat.cast_max]
  refine max_le h ?_
  by_cases h0 : (0 : ℤ) ≤ ⌊min cb total⌋
  · have h1 : ((Int.toNat ⌊min cb total⌋ : Nat) : ℚ) = ((⌊min cb total⌋ : ℤ) : ℚ) := by
      exact_mod_cast congrArg (fun z : ℤ => (z : ℚ)) (Int.toNat_of_nonneg h0)
    rw [h1]
    exact le_trans (Int.floor_le _) (min_le_right _ _)
  · rw [Int.toNat_of_nonpos (by omega)]
    exact le_trans (by positivity) h

/-- C3 (counterexample): with a raw miss count of 10 and a total judged-object
count of 5, `calculate_effective_misses` returns 10, violating the claimed
upper bound — only the combo-based estimate is clamped to the total, not the
raw miss count. -/
theorem effective_misses_bounds_cex :
    ¬ (10 ≤ calculate_effective_misses zeroAttrs none 10 5 ∧
        ((calculate_effective_misses zeroAttrs none 10 5 : Nat) : ℚ) ≤ 5) := by
  decide

/-- C3 (amended): the effective miss count is always at least the raw observed
miss count, and it is at most the total judged-object count whenever the raw
miss count itself does not exceed that total (the source clamps only the
combo-based estimate to the total before taking the maximum). -/
theorem effective_misses_bounds (attributes : OsuDifficultyAttributes)
    (combo : Option Nat) (n_misses : Nat) (total_hits : ℚ)
    (h : (n_misses : ℚ) ≤ total_hits) :
    n_misses ≤ calculate_effective_misses attributes combo n_misses total_hits ∧
    ((calculate_effective_misses attributes combo n_misses total_hits : Nat) : ℚ) ≤
      total_hits := by
  simp only [calculate_effective_misses]
  exact ⟨le_max_left _ _, max_toNat_floor_le _ _ _ h⟩

/-- C3 (witness): the amended bounds at a concrete slider map with combo 3,
2 raw misses and 15 judged objects. -/
theorem effective_misses_bounds_witness :
    2 ≤ calculate_effective_misses sliderAttrs (some 3) 2 15 ∧
    ((calculate_effective_misses sliderAttrs (some 3) 2 15 : Nat) : ℚ) ≤ 15 :=
  effective_misses_bounds sliderAttrs (some 3) 2 15 (by norm_num)

/-- C6: a zero total judged-object count forces every component value and the
total pp of the terminal calculation to exactly 0 (the zero-guard branch is
taken, so no division occurs). -/
theorem calculate_zero_objects (self : OsuPPInner) (map_id : Int)
    (h : self.total_hits = 0) :
    (self.calculate map_id).pp_aim = 0 ∧ (self.calculate map_id).pp_speed = 0 ∧
    (self.calculate map_id).pp_acc = 0 ∧ (self.calculate map_id).pp_flashlight = 0 ∧
    (self.calculate map_id).pp = 0 := by
  have hg : |((self.total_hits : ℚ) : ℝ)| ≤ f64Epsilon := by
    rw [h]
    simp only [Rat.cast_zero, abs_zero, f64Epsilon]
    positivity
  simp only [OsuPPInner.calculate, if_pos hg]
  norm_num

/-- C6 (witness): the zero-object guarantee at concrete all-zero terminal
inputs. -/
theorem calculate_zero_objects_witness :
    (zeroInner.calculate 0).pp_aim = 0 ∧ (zeroInner.calculate 0).pp_speed = 0 ∧
    (zeroInner.calculate 0).pp_acc = 0 ∧ (zeroInner.calculate 0).pp_flashlight = 0 ∧
    (zeroInner.calculate 0).pp = 0 :=
  calculate_zero_objects zeroInner 0 rfl

theorem rxMapAdjust_eq (map_id : Int) (pp : ℝ) :
    rxMapAdjust map_id pp = rxMapFactor map_id * pp := by
  unfold rxMapAdjust rxMapFactor
  split_ifs <;> ring

theorem rxMapFactor_zero : rxMapFactor 0 = 1 := by
  norm_num [rxMapFactor]

/-- C7: the final pp is multiplied by the hard-coded map-ID correction factor
(0.7 for map 1808605, 0.6 for 1821147, 0.6 for 1849420, 1 otherwise) exactly
when the RX mod is active; without RX the result is independent of the map ID.
Stated against map ID 0, which matches none of the corrections. -/
theorem rx_map_id_correction (self : OsuPPInner) (map_id : Int) :
    (self.calculate map_id).pp =
      (if self.mods.rx = true then rxMapFactor map_id else 1) * (self.calculate 0).pp := by
  by_cases hg : |((self.total_hits : ℚ) : ℝ)| ≤ f64Epsilon
  · simp only [OsuPPInner.calculate, if_pos hg]
    norm_num
  · simp only [OsuPPInner.calculate, if_neg hg]
    by_cases hrx : self.mods.rx = true
    · simp only [hrx, eq_self_iff_true, if_true, true_and]
      rw [rxMapAdjust_eq, rxMapAdjust_eq, rxMapFactor_zero, one_mul]
    · simp only [if_neg hrx]
      rw [one_mul]

/-- C10: when no accuracy target is set and the explicit tier counts plus
misses sum to less than the judged-object count, `assert_hitresults`
attributes the remainder `r` to a single tier — to n300 if n300 was never
set; otherwise to n100 if n100 was never set; otherwise to n50 if n50 was
never set; otherwise it adds `r` to n300 — so the counts used plus misses
always sum to the judged-object count. -/
theorem assert_hitresults_distribution (self : OsuPP)
    (attributes : OsuDifficultyAttributes) (N : Nat) (hacc : self.acc = none)
    (hN : self.passed_objects.getD self.map.hit_objects_len = N)
    (hsum : self.n300.getD 0 + self.n100.getD 0 + self.n50.getD 0 + self.n_misses < N) :
    (self.assert_hitresults attributes).n300 + (self.assert_hitresults attributes).n100 +
        (self.assert_hitresults attributes).n50 + self.n_misses = N ∧
    (self.n300 = none →
      (self.assert_hitresults attributes).n300 =
          N - (self.n300.getD 0 + self.n100.getD 0 + self.n50.getD 0 + self.n_misses) ∧
      (self.assert_hitresults attributes).n100 = self.n100.getD 0 ∧
      (self.assert_hitresults attributes).n50 = self.n50.getD 0) ∧
    (self.n300.isSome = true → self.n100 = none →
      (self.assert_hitresults attributes).n300 = self.n300.getD 0 ∧
      (self.assert_hitresults attributes).n100 =
          N - (self.n300.getD 0 + self.n100.getD 0 + self.n50.getD 0 + self.n_misses) ∧
      (self.assert_hitresults attributes).n50 = self.n50.getD 0) ∧
    (self.n300.isSome = true → self.n100.isSome = true → self.n50 = none →
      (self.assert_hitresults attributes).n300 = self.n300.getD 0 ∧
      (self.assert_hitresults attributes).n100 = self.n100.getD 0 ∧
      (self.assert_hitresults attributes).n50 =
          N - (self.n300.getD 0 + self.n100.getD 0 + self.n50.getD 0 + self.n_misses)) ∧
    (self.n300.isSome = true → self.n100.isSome = true → self.n50.isSome = true →
      (self.assert_hitresults attributes).n300 =
          self.n300.getD 0 +
            (N - (self.n300.getD 0 + self.n100.getD 0 + self.n50.getD 0 + self.n_misses)) ∧
      (self.assert_hitresults attributes).n100 = self.n100.getD 0 ∧
      (self.assert_hitresults attributes).n50 = self.n50.getD 0) := by
  rcases h3 : self.n300 with _ | v3 <;> rcases h1 : self.n100 with _ | v1 <;>
    rcases h5 : self.n50 with _ | v5 <;>
      (try simp only [h3, h1, h5, Option.getD_some, Option.getD_none] at hsum) <;>
      simp only [OsuPP.assert_hitresults, hacc, hN, h3, h1, h5, Option.getD_some,
        Option.getD_none] <;>
      rw [if_pos (by omega)] <;>
      simp <;>
      omega

/-- C10 (witness): the leftover-distribution at a concrete builder with
n300 = 3 set, n100 unset, n50 = 2 set, 1 miss and 10 passed objects — the
4 leftover objects go to n100. -/
theorem assert_hitresults_distribution_witness :
    (c10B.assert_hitresults zeroAttrs).n300 + (c10B.assert_hitresults zeroAttrs).n100 +
        (c10B.assert_hitresults zeroAttrs).n50 + c10B.n_misses = 10 ∧
    (c10B.n300 = none →
      (c10B.assert_hitresults zeroAttrs).n300 =
          10 - (c10B.n300.getD 0 + c10B.n100.getD 0 + c10B.n50.getD 0 + c10B.n_misses) ∧
      (c10B.assert_hitresults zeroAttrs).n100 = c10B.n100.getD 0 ∧
      (c10B.assert_hitresults zeroAttrs).n50 = c10B.n50.getD 0) ∧
    (c10B.n300.isSome = true → c10B.n100 = none →
      (c10B.assert_hitresults zeroAttrs).n300 = c10B.n300.getD 0 ∧
      (c10B.assert_hitresults zeroAttrs).n100 =
          10 - (c10B.n300.getD 0 + c10B.n100.getD 0 + c10B.n50.getD 0 + c10B.n_misses) ∧
      (c10B.assert_hitresults zeroAttrs).n50 = c10B.n50.getD 0) ∧
    (c10B.n300.isSome = true → c10B.n100.isSome = true → c10B.n50 = none →
      (c10B.assert_hitresults zeroAttrs).n300 = c10B.n300.getD 0 ∧
      (c10B.assert_hitresults zeroAttrs).n100 = c10B.n100.getD 0 ∧
      (c10B.assert_hitresults zeroAttrs).n50 =
          10 - (c10B.n300.getD 0 + c10B.n100.getD 0 + c10B.n50.getD 0 + c10B.n_misses)) ∧
    (c10B.n300.isSome = true → c10B.n100.isSome = true → c10B.n50.isSome = true →
      (c10B.assert_hitresults zeroAttrs).n300 =
          c10B.n300.getD 0 +
            (10 - (c10B.n300.getD 0 + c10B.n100.getD 0 + c10B.n50.getD 0 + c10B.n_misses)) ∧
      (c10B.assert_hitresults zeroAttrs).n100 = c10B.n100.getD 0 ∧
      (c10B.assert_hitresults zeroAttrs).n50 = c10B.n50.getD 0) :=
  assert_hitresults_distribution c10B zeroAttrs 10 rfl rfl (by decide)

theorem checkedSub_pos {a b : Nat} (h : b ≤ a) : checkedSub a b = some (a - b) := by
  simp [checkedSub, h]

theorem checkedSub_zero (a : Nat) : checkedSub a 0 = some a := by
  simp [checkedSub]

theorem accuracy_else_eval (self : OsuPP) (acc0 : ℚ) (N T : Nat)
    (h100 : self.n100 = none) (h50 : self.n50 = none) (hm : self.n_misses = 0)
    (hp : self.passed_objects = some N)
    (hT : (round (acc0 / 100 * (N : ℚ) * 6)).toNat = T)
    (hTN : N ≤ T) (hT6 : T ≤ 6 * N) :
    self.accuracy acc0 =
      some { self with
        n300 := some ((T - N) / 5 -
          min ((T - N) / 5) ((N - (T - N) / 5 - min ((T - N) % 5) (N - (T - N) / 5)) / 4))
        n100 := some (min ((T - N) % 5) (N - (T - N) / 5) +
          5 * min ((T - N) / 5) ((N - (T - N) / 5 - min ((T - N) % 5) (N - (T - N) / 5)) / 4))
        n50 := some (N - (T - N) / 5 - min ((T - N) % 5) (N - (T - N) / 5) -
          4 * min ((T - N) / 5) ((N - (T - N) / 5 - min ((T - N) % 5) (N - (T - N) / 5)) / 4))
        acc := some
          (((6 * ((T - N) / 5 -
              min ((T - N) / 5)
                ((N - (T - N) / 5 - min ((T - N) % 5) (N - (T - N) / 5)) / 4)) +
            2 * (min ((T - N) % 5) (N - (T - N) / 5) +
              5 * min ((T - N) / 5)
                ((N - (T - N) / 5 - min ((T - N) % 5) (N - (T - N) / 5)) / 4)) +
            (N - (T - N) / 5 - min ((T - N) % 5) (N - (T - N) / 5) -
              4 * min ((T - N) / 5)
                ((N - (T - N) / 5 - min ((T - N) % 5) (N - (T - N) / 5)) / 4)) : Nat) : ℚ) /
            ((6 * N : Nat) : ℚ)) } := by
  have hq : (T - N) / 5 ≤ N := by omega
  have hx : min ((T - N) % 5) (N - (T - N) / 5) ≤ N - (T - N) / 5 := by omega
  have hn : min ((T - N) / 5)
      ((N - (T - N) / 5 - min ((T - N) % 5) (N - (T - N) / 5)) / 4) ≤ (T - N) / 5 := by omega
  have h4n : 4 * min ((T - N) / 5)
      ((N - (T - N) / 5 - min ((T - N) % 5) (N - (T - N) / 5)) / 4) ≤
      N - (T - N) / 5 - min ((T - N) % 5) (N - (T - N) / 5) := by omega
  simp only [OsuPP.accuracy, h100, h50, hm, hp, Option.getD_some, Option.none_or,
    Option.isSome_none, Bool.false_eq_true, if_false, Nat.zero_min, Nat.min_zero,
    Nat.sub_zero, hT, checkedSub_zero, checkedSub_pos hTN, checkedSub_pos hq,
    checkedSub_pos hx, checkedSub_pos hn, checkedSub_pos h4n, Option.bind_eq_bind',
    Option.some_bind, Option.pure_def]

theorem accuracy_else_eval_general (self : OsuPP) (acc0 : ℚ) (N T m : Nat)
    (h100 : self.n100 = none) (h50 : self.n50 = none) (hm : self.n_misses = m)
    (hp : self.passed_objects = some N)
    (hT : (round (acc0 / 100 * (N : ℚ) * 6)).toNat = T)
    (hmN : m ≤ N) (hdelta : N - m ≤ T) (hq : (T - (N - m)) / 5 + m ≤ N) :
    self.accuracy acc0 =
      some { self with
        n300 := some ((T - (N - m)) / 5 - min ((T - (N - m)) / 5) ((N - (T - (N - m)) / 5 - min ((T - (N - m)) % 5) (N - (T - (N - m)) / 5 - m) - m) / 4))
        n100 := some (min ((T - (N - m)) % 5) (N - (T - (N - m)) / 5 - m) + 5 * (min ((T - (N - m)) / 5) ((N - (T - (N - m)) / 5 - min ((T - (N - m)) % 5) (N - (T - (N - m)) / 5 - m) - m) / 4)))
        n50 := some (N - (T - (N - m)) / 5 - min ((T - (N - m)) % 5) (N - (T - (N - m)) / 5 - m) - m - 4 * (min ((T - (N - m)) / 5) ((N - (T - (N - m)) / 5 - min ((T - (N - m)) % 5) (N - (T - (N - m)) / 5 - m) - m) / 4)))
        acc := some (((6 * ((T - (N - m)) / 5 - min ((T - (N - m)) / 5) ((N - (T - (N - m)) / 5 - min ((T - (N - m)) % 5) (N - (T - (N - m)) / 5 - m) - m) / 4)) + 2 * (min ((T - (N - m)) % 5) (N - (T - (N - m)) / 5 - m) + 5 * (min ((T - (N - m)) / 5) ((N - (T - (N - m)) / 5 - min ((T - (N - m)) % 5) (N - (T - (N - m)) / 5 - m) - m) / 4))) + (N - (T - (N - m)) / 5 - min ((T - (N - m)) % 5) (N - (T - (N - m)) / 5 - m) - m - 4 * (min ((T - (N - m)) / 5) ((N - (T - (N - m)) / 5 - min ((T - (N - m)) % 5) (N - (T - (N - m)) / 5 - m) - m) / 4))) : Nat) : ℚ) / ((6 * N : Nat) : ℚ)) } := by
  have hc2 : N - m ≤ T := hdelta
  have hc3 : (T - (N - m)) / 5 ≤ N := by omega
  have hc4 : m ≤ N - (T - (N - m)) / 5 := by omega
  have hc5 : min ((T - (N - m)) % 5) (N - (T - (N - m)) / 5 - m) ≤ N - (T - (N - m)) / 5 := by omega
  have hc6 : m ≤ N - (T - (N - m)) / 5 - min ((T - (N - m)) % 5) (N - (T - (N - m)) / 5 - m) := by omega
  have hc7 : min ((T - (N - m)) / 5) ((N - (T - (N - m)) / 5 - min ((T - (N - m)) % 5) (N - (T - (N - m)) / 5 - m) - m) / 4) ≤ (T - (N - m)) / 5 := by omega
  have hc8 : 4 * (min ((T - (N - m)) / 5) ((N - (T - (N - m)) / 5 - min ((T - (N - m)) % 5) (N - (T - (N - m)) / 5 - m) - m) / 4)) ≤ N - (T - (N - m)) / 5 - min ((T - (N - m)) % 5) (N - (T - (N - m)) / 5 - m) - m := by omega
  simp only [OsuPP.accuracy, h100, h50, hm, hp, Option.getD_some, Option.none_or,
    Option.isSome_none, Bool.false_eq_true, if_false, Nat.min_eq_left hmN, hT,
    checkedSub_pos hmN, checkedSub_pos hc2, checkedSub_pos hc3, checkedSub_pos hc4,
    checkedSub_pos hc5, checkedSub_pos hc6, checkedSub_pos hc7, checkedSub_pos hc8,
    Option.bind_eq_bind', Option.some_bind, Option.pure_def]

theorem accuracy_fixed_eval (self : OsuPP) (acc0 : ℚ) (N T B C m : Nat)
    (h100 : self.n100 = some B) (h50 : self.n50 = some C) (hm : self.n_misses = m)
    (hp : self.passed_objects = some N)
    (hT : (round (6 * (acc0 / 100) * (N : ℚ))).toNat = T)
    (hBCm : B + C + m ≤ N) :
    self.accuracy acc0 =
      some { self with
        n300 := some (min (N - B - C - m) ((T - (2 * B + C + m)) / 6))
        n100 := some B
        n50 := some (C + (N - B - C - m - (min (N - B - C - m) ((T - (2 * B + C + m)) / 6))))
        acc := some (((6 * (min (N - B - C - m) ((T - (2 * B + C + m)) / 6)) + 2 * B + (C + (N - B - C - m - (min (N - B - C - m) ((T - (2 * B + C + m)) / 6)))) : Nat) : ℚ) / ((6 * N : Nat) : ℚ)) } := by
  have hc1 : B ≤ N := by omega
  have hc2 : C ≤ N - B := by omega
  have hc3 : m ≤ N - B - C := by omega
  simp only [OsuPP.accuracy, h100, h50, hm, hp, Option.getD_some, Option.or,
    Option.isSome_some, if_true, hT, checkedSub_pos hc1, checkedSub_pos hc2,
    checkedSub_pos hc3, Option.filter, Option.isNone_some, Bool.false_eq_true, if_false,
    Option.bind_eq_bind', Option.some_bind, Option.pure_def]

theorem accuracy_counts_spec (N T : Nat) (hTN : N ≤ T) (hT6 : T ≤ 6 * N) :
    ((T - N) / 5 -
        min ((T - N) / 5) ((N - (T - N) / 5 - min ((T - N) % 5) (N - (T - N) / 5)) / 4)) +
      (min ((T - N) % 5) (N - (T - N) / 5) +
        5 * min ((T - N) / 5) ((N - (T - N) / 5 - min ((T - N) % 5) (N - (T - N) / 5)) / 4)) +
      (N - (T - N) / 5 - min ((T - N) % 5) (N - (T - N) / 5) -
        4 * min ((T - N) / 5) ((N - (T - N) / 5 - min ((T - N) % 5) (N - (T - N) / 5)) / 4)) =
      N ∧
    6 * ((T - N) / 5 -
        min ((T - N) / 5) ((N - (T - N) / 5 - min ((T - N) % 5) (N - (T - N) / 5)) / 4)) +
      2 * (min ((T - N) % 5) (N - (T - N) / 5) +
        5 * min ((T - N) / 5) ((N - (T - N) / 5 - min ((T - N) % 5) (N - (T - N) / 5)) / 4)) +
      (N - (T - N) / 5 - min ((T - N) % 5) (N - (T - N) / 5) -
        4 * min ((T - N) / 5) ((N - (T - N) / 5 - min ((T - N) % 5) (N - (T - N) / 5)) / 4)) ≤
      T ∧
    T ≤ 6 * ((T - N) / 5 -
        min ((T - N) / 5) ((N - (T - N) / 5 - min ((T - N) % 5) (N - (T - N) / 5)) / 4)) +
      2 * (min ((T - N) % 5) (N - (T - N) / 5) +
        5 * min ((T - N) / 5) ((N - (T - N) / 5 - min ((T - N) % 5) (N - (T - N) / 5)) / 4)) +
      (N - (T - N) / 5 - min ((T - N) % 5) (N - (T - N) / 5) -
        4 * min ((T - N) / 5) ((N - (T - N) / 5 - min ((T - N) % 5) (N - (T - N) / 5)) / 4)) +
      4 := by
  omega

theorem accTarget_bounds (acc0 : ℚ) (N : Nat) (hlo : 100 / 6 ≤ acc0) (hhi : acc0 ≤ 100) :
    N ≤ (round (acc0 / 100 * (N : ℚ) * 6)).toNat ∧
    (round (acc0 / 100 * (N : ℚ) * 6)).toNat ≤ 6 * N ∧
    |(((round (acc0 / 100 * (N : ℚ) * 6)).toNat : Nat) : ℚ) - acc0 / 100 * (N : ℚ) * 6| ≤
      1 / 2 := by
  have hN0 : (0 : ℚ) ≤ (N : ℚ) := Nat.cast_nonneg N
  have hxlo : ((N : ℚ)) ≤ acc0 / 100 * (N : ℚ) * 6 := by nlinarith
  have hxhi : acc0 / 100 * (N : ℚ) * 6 ≤ ((6 * N : Nat) : ℚ) := by push_cast; nlinarith
  have hRlo : (N : ℤ) ≤ round (acc0 / 100 * (N : ℚ) * 6) := by
    have h1 : round ((N : ℚ)) ≤ round (acc0 / 100 * (N : ℚ) * 6) := by
      rw [round_eq, round_eq]
      exact Int.floor_mono (by linarith)
    rwa [round_natCast] at h1
  have hRhi : round (acc0 / 100 * (N : ℚ) * 6) ≤ ((6 * N : Nat) : ℤ) := by
    have h1 : round (acc0 / 100 * (N : ℚ) * 6) ≤ round (((6 * N : Nat) : ℚ)) := by
      rw [round_eq, round_eq]
      exact Int.floor_mono (by linarith)
    rwa [round_natCast] at h1
  have hR0 : (0 : ℤ) ≤ round (acc0 / 100 * (N : ℚ) * 6) := le_trans (by omega) hRlo
  refine ⟨by omega, by zify [hR0] at *; omega, ?_⟩
  have hT : (((round (acc0 / 100 * (N : ℚ) * 6)).toNat : Nat) : ℚ) =
      ((round (acc0 / 100 * (N : ℚ) * 6) : ℤ) : ℚ) := by
    exact_mod_cast congrArg (fun z : ℤ => (z : ℚ)) (Int.toNat_of_nonneg hR0)
  rw [hT, abs_sub_comm]
  exact abs_sub_round _

theorem acc_bound_of_points (N T P : Nat) (a : ℚ) (hN : 75 ≤ N)
    (hPT : P ≤ T) (hTP : T ≤ P + 4)
    (habs : |(T : ℚ) - a * (N : ℚ) * 6| ≤ 1 / 2) :
    |((P : Nat) : ℚ) / ((6 * N : Nat) : ℚ) - a| ≤ 1 / 100 := by
  have hNpos : (0 : ℚ) < (N : ℚ) := by exact_mod_cast (by omega : 0 < N)
  have h6N : ((6 * N : Nat) : ℚ) = 6 * (N : ℚ) := by push_cast; ring
  have key : ((P : ℚ)) / (6 * (N : ℚ)) - a = ((P : ℚ) - a * (N : ℚ) * 6) / (6 * (N : ℚ)) := by
    field_simp
    ring
  rw [h6N, key, abs_div]
  rw [show |6 * (N : ℚ)| = 6 * (N : ℚ) from abs_of_pos (by linarith)]
  rw [div_le_iff₀ (by linarith)]
  have c1 : (P : ℚ) ≤ (T : ℚ) := by exact_mod_cast hPT
  have c2 : (T : ℚ) ≤ (P : ℚ) + 4 := by exact_mod_cast hTP
  have h1 : |(P : ℚ) - (T : ℚ)| ≤ 4 := by
    rw [abs_le]
    constructor <;> linarith
  have hPa : |(P : ℚ) - a * (N : ℚ) * 6| ≤ 9 / 2 :=
    calc |(P : ℚ) - a * (N : ℚ) * 6| ≤
        |(P : ℚ) - (T : ℚ)| + |(T : ℚ) - a * (N : ℚ) * 6| := abs_sub_le _ _ _
      _ ≤ 4 + 1 / 2 := add_le_add h1 habs
      _ = 9 / 2 := by norm_num
  have hc : (75 : ℚ) ≤ (N : ℚ) := by exact_mod_cast hN
  calc |(P : ℚ) - a * (N : ℚ) * 6| ≤ 9 / 2 := hPa
    _ ≤ 1 / 100 * (6 * (N : ℚ)) := by linarith

/-- C4 (counterexample): at a single judged object and a 50% accuracy target
the setter derives counts (0, 1, 0) whose recomputed weighted accuracy is 1/3,
which is 16.7 percentage points away from the target — far beyond the claimed
1 percentage point (integer counts on tiny maps cannot approximate arbitrary
targets). -/
theorem accuracy_normalization_spec_cex :
    (accB 1 0).accuracy 50 =
      some { accB 1 0 with
               n300 := some 0, n100 := some 1, n50 := some 0, acc := some (1 / 3) } ∧
    ¬ (|(1 / 3 : ℚ) - 50 / 100| ≤ 1 / 100) := by
  constructor
  · have hT : (round ((50 : ℚ) / 100 * ((1 : Nat) : ℚ) * 6)).toNat = 3 := by
      rw [show (50 : ℚ) / 100 * ((1 : Nat) : ℚ) * 6 = ((3 : Nat) : ℚ) by norm_num,
        round_natCast, Int.toNat_natCast]
    rw [accuracy_else_eval_general (accB 1 0) 50 1 3 0 rfl rfl rfl rfl hT (by norm_num)
      (by norm_num) (by norm_num)]
    norm_num
  · rw [show (1 / 3 : ℚ) - 50 / 100 = -(1 / 6) by norm_num, abs_neg,
      abs_of_pos (show (0 : ℚ) < 1 / 6 by norm_num)]
    norm_num

/-- C4 (amended): for accuracy targets in [100/6, 100] percent, no pre-fixed
middle-tier counts, zero misses and at least 75 judged objects, the derived
tier counts are (non-negative naturals that are) well-defined without
underflow, sum to exactly `N - misses`, and the recomputed weighted accuracy
`(6·n300 + 2·n100 + n50)/(6·N)` lies within 1 percentage point of the target.
(Small `N` breaks the 1-point bound — see the counterexample — and targets
below 1/6 or pre-fixed tiers/misses can underflow, see the C5 analysis.) -/
theorem accuracy_normalization_spec (self : OsuPP) (acc0 : ℚ) (N : Nat)
    (h100 : self.n100 = none) (h50 : self.n50 = none) (hm : self.n_misses = 0)
    (hp : self.passed_objects = some N) (hN : 75 ≤ N)
    (hlo : 100 / 6 ≤ acc0) (hhi : acc0 ≤ 100) :
    ∃ n300 n100 n50 : Nat, ∃ acc : ℚ,
      self.accuracy acc0 = some { self with
                                    n300 := some n300, n100 := some n100,
                                    n50 := some n50, acc := some acc } ∧
      n300 + n100 + n50 = N - self.n_misses ∧
      acc = ((6 * n300 + 2 * n100 + n50 : Nat) : ℚ) / ((6 * N : Nat) : ℚ) ∧
      |acc - acc0 / 100| ≤ 1 / 100 := by
  obtain ⟨hTN, hT6, habs⟩ := accTarget_bounds acc0 N hlo hhi
  obtain ⟨hsum, hP1, hP2⟩ :=
    accuracy_counts_spec N ((round (acc0 / 100 * (N : ℚ) * 6)).toNat) hTN hT6
  refine ⟨_, _, _, _,
    accuracy_else_eval self acc0 N ((round (acc0 / 100 * (N : ℚ) * 6)).toNat) h100 h50 hm hp
      rfl hTN hT6, ?_, rfl, ?_⟩
  · rw [hm, Nat.sub_zero]
    exact hsum
  · exact acc_bound_of_points N _ _ (acc0 / 100) hN hP1 hP2 habs

/-- C4 (witness): the amended normalization at 80 objects and a 50% target:
counts exist, sum to 80, and the recomputed accuracy is within 1 percentage
point of the target. -/
theorem accuracy_normalization_spec_witness :
    ∃ n300 n100 n50 : Nat, ∃ acc : ℚ,
      (accB 80 0).accuracy 50 = some { accB 80 0 with
                                         n300 := some n300, n100 := some n100,
                                         n50 := some n50, acc := some acc } ∧
      n300 + n100 + n50 = 80 - (accB 80 0).n_misses ∧
      acc = ((6 * n300 + 2 * n100 + n50 : Nat) : ℚ) / ((6 * 80 : Nat) : ℚ) ∧
      |acc - 50 / 100| ≤ 1 / 100 :=
  accuracy_normalization_spec (accB 80 0) 50 80 rfl rfl rfl rfl (by norm_num)
    (by norm_num) (by norm_num)

theorem checkedSub_neg {a b : Nat} (h : a < b) : checkedSub a b = none := by
  simp only [checkedSub, if_neg (by omega : ¬ b ≤ a)]

/-- C5: the `accuracy` setter is NOT total — its unchecked `usize`
subtractions underflow on in-range inputs.  With a 0% target, 10 passed
objects and no misses, the no-fixed-tier branch computes
`target_total - (n_objects - misses) = 0 - 10`, which underflows; with
`n50 = 20` fixed and 10 passed objects the fixed-tier branch computes
`missing_objects = 10 - 0 - 20`, which underflows.  The checked embedding
returns `none` at both inputs, i.e. the source panics (debug) or wraps
(release) there. -/
theorem accuracy_underflow_bug :
    (accB 10 0).accuracy 0 = none ∧
    ({ accB 10 0 with n50 := some 20 } : OsuPP).accuracy 100 = none := by
  constructor
  · have hT0 : (round ((0 : ℚ) / 100 * ((10 : Nat) : ℚ) * 6)).toNat = 0 := by
      rw [show (0 : ℚ) / 100 * ((10 : Nat) : ℚ) * 6 = ((0 : Nat) : ℚ) by norm_num,
        round_natCast, Int.toNat_natCast]
    simp only [OsuPP.accuracy, accB, OsuPP.new, Option.getD_some, Option.none_or,
      Option.isSome_none, Bool.false_eq_true, if_false, Nat.zero_min, hT0,
      checkedSub_zero, checkedSub_neg (show (0 : Nat) < 10 by norm_num),
      Option.bind_eq_bind', Option.some_bind, Option.none_bind, Option.pure_def]
  · simp only [OsuPP.accuracy, accB, OsuPP.new, Option.getD_some, Option.getD_none,
      Option.none_or, Option.isSome_some, if_true, checkedSub_zero,
      checkedSub_neg (show (10 : Nat) < 20 by norm_num), Option.bind_eq_bind',
      Option.some_bind, Option.none_bind, Option.pure_def]

/-- C9 (counterexample): with 5 misses and 10 passed objects, `accuracy(50)`
derives counts (5, 0, 0) with stored accuracy 1/2, but applying `accuracy(50)`
again to the builder it produced yields counts (4, 0, 1) with stored accuracy
5/12 — the fixed-tier branch counts each miss as one placed point, so the
second application is not the identity. -/
theorem accuracy_idempotent_cex :
    ((accB 10 5).accuracy 50).bind (fun b => b.accuracy 50) ≠ (accB 10 5).accuracy 50 := by
  have hT : (round ((50 : ℚ) / 100 * ((10 : Nat) : ℚ) * 6)).toNat = 30 := by
    rw [show (50 : ℚ) / 100 * ((10 : Nat) : ℚ) * 6 = ((30 : Nat) : ℚ) by norm_num,
      round_natCast, Int.toNat_natCast]
  have h1 := accuracy_else_eval_general (accB 10 5) 50 10 30 5 rfl rfl rfl rfl hT
    (by norm_num) (by norm_num) (by norm_num)
  norm_num at h1
  rw [h1, Option.some_bind]
  have hT2 : (round (6 * ((50 : ℚ) / 100) * ((10 : Nat) : ℚ))).toNat = 30 := by
    rw [show 6 * ((50 : ℚ) / 100) * ((10 : Nat) : ℚ) = ((30 : Nat) : ℚ) by norm_num,
      round_natCast, Int.toNat_natCast]
  rw [accuracy_fixed_eval _ 50 10 30 0 0 5 rfl rfl rfl rfl hT2 (by norm_num)]
  simp only [ne_eq, Option.some.injEq]
  intro hcontra
  have h3 := congrArg OsuPP.n300 hcontra
  norm_num at h3

/-- C9 (amended): for a builder with no pre-fixed middle tiers, zero misses,
`passed_objects = N` with `N ≥ 1`, and an accuracy target in [100/6, 100]
percent, the `accuracy` setter is idempotent: applying it a second time with
the same target to the builder produced by the first application returns
exactly that builder — same derived counts (naturals, hence non-negative) and
same stored accuracy.  With misses present this fails, see the
counterexample. -/
theorem accuracy_idempotent (self : OsuPP) (acc0 : ℚ) (N : Nat)
    (h100 : self.n100 = none) (h50 : self.n50 = none) (hm : self.n_misses = 0)
    (hp : self.passed_objects = some N) (hN : 1 ≤ N)
    (hlo : 100 / 6 ≤ acc0) (hhi : acc0 ≤ 100) :
    ∀ b1, self.accuracy acc0 = some b1 → b1.accuracy acc0 = some b1 := by
  intro b1 hfirst
  obtain ⟨hTN, hT6, -⟩ := accTarget_bounds acc0 N hlo hhi
  have heval := accuracy_else_eval self acc0 N ((round (acc0 / 100 * (N : ℚ) * 6)).toNat)
    h100 h50 hm hp rfl hTN hT6
  rw [heval] at hfirst
  injection hfirst with hb
  subst hb
  have hT2 : (round (6 * (acc0 / 100) * (N : ℚ))).toNat =
      (round (acc0 / 100 * (N : ℚ) * 6)).toNat := by
    rw [show 6 * (acc0 / 100) * (N : ℚ) = acc0 / 100 * (N : ℚ) * 6 by ring]
  refine Eq.trans (accuracy_fixed_eval _ acc0 N
    ((round (acc0 / 100 * (N : ℚ) * 6)).toNat) _ _ 0 rfl rfl ?_ ?_ hT2 ?_) ?_
  · exact hm
  · exact hp
  · omega
  · refine congrArg some ?_
    congr 1
    · exact congrArg (fun k : Nat => some ((k : ℚ) / ((6 * N : Nat) : ℚ))) (by omega)
    · exact congrArg some (by omega)
    · exact congrArg some (by omega)

/-- C9 (witness): idempotence at a concrete builder — 4 objects, no misses,
50% target; the first application derives (1, 3, 0) with accuracy 1/2, and a
second application returns that builder unchanged. -/
theorem accuracy_idempotent_witness : accB4After.accuracy 50 = some accB4After :=
  accuracy_idempotent (accB 4 0) 50 4 rfl rfl rfl rfl (by norm_num) (by norm_num)
    (by norm_num) accB4After (by
      have hT : (round ((50 : ℚ) / 100 * ((4 : Nat) : ℚ) * 6)).toNat = 12 := by
        rw [show (50 : ℚ) / 100 * ((4 : Nat) : ℚ) * 6 = ((12 : Nat) : ℚ) by norm_num,
          round_natCast, Int.toNat_natCast]
      have h1 := accuracy_else_eval_general (accB 4 0) 50 4 12 0 rfl rfl rfl rfl hT
        (by norm_num) (by norm_num) (by norm_num)
      norm_num at h1
      exact h1)
